import Mathlib

/-!
Verification of `tensorflow_datasets/core/registered.py`: a class-registration
mechanism built on a metaclass hook (`RegisteredDataset.__new__`), three
process-wide registry tables (`_DATASET_REGISTRY`, `_ABSTRACT_DATASET_REGISTRY`,
`_IN_DEVELOPMENT_REGISTRY`), a global `_skip_registration` flag, and the
`skip_registration` context manager.

The Python module state is embedded as an explicit `RegistryState` record; the
metaclass hook becomes a state-passing function returning `Except` for the
`ValueError` raises; the context manager's try/finally becomes a combinator
that runs a body on the entered state and restores the flag on both exit paths.
The external collaborators (`naming.camelcase_to_snakecase` and
`py_utils.is_notebook`) are parameters: a normalization function
`normalize : String → String` and a boolean `is_notebook`.
-/

/-- A constructed class object, as far as the registration mechanism can see:
its declared identifier, the injected `name` attribute, whether
`inspect.isabstract` holds of it, the `IN_DEVELOPMENT` entry of its own class
body (`class_dict.get("IN_DEVELOPMENT")`, `none` when the body does not set
it), and the effective `IN_DEVELOPMENT` attribute after Python attribute lookup
(own body first, else inherited from the bases). -/
structure Cls where
  cls_name : String
  name : String
  is_abstract : Bool
  dict_IN_DEVELOPMENT : Option Bool
  IN_DEVELOPMENT : Bool
deriving Repr, DecidableEq

/-- The `ValueError` raised on a duplicate registration, carrying its message. -/
inductive RegError where
  | valueError (msg : String)
deriving Repr, DecidableEq

/-- The process-wide mutable state of the module: the three registry tables
(dicts keyed by snake-cased name, embedded as association lists that keep at
most one entry per key) and the `_skip_registration` flag. -/
structure RegistryState where
  DATASET_REGISTRY : List (String × Cls)
  ABSTRACT_DATASET_REGISTRY : List (String × Cls)
  IN_DEVELOPMENT_REGISTRY : List (String × Cls)
  skip_registration_flag : Bool
deriving Repr, DecidableEq

/-- The module state at process start: all three tables empty,
`_skip_registration = False`. -/
def initRegistryState : RegistryState :=
  { DATASET_REGISTRY := []
    ABSTRACT_DATASET_REGISTRY := []
    IN_DEVELOPMENT_REGISTRY := []
    skip_registration_flag := false }

/-- `name in d` on a Python dict. -/
def hasKey (k : String) : List (String × Cls) → Bool
  | [] => false
  | (k', _) :: rest => k' = k || hasKey k rest

/-- `d[k] = v` on a Python dict: replace the entry if the key is present,
append it otherwise. -/
def dictInsert (k : String) (v : Cls) : List (String × Cls) → List (String × Cls)
  | [] => [(k, v)]
  | (k', v') :: rest =>
      if k' = k then (k, v) :: rest else (k', v') :: dictInsert k v rest

/-- Modelled from the spec: `NormalizeName`, the external collaborator
`naming.camelcase_to_snakecase` (its source is not part of the excerpt). The
spec only requires a deterministic camel-case to snake-case conversion; this
is a straightforward such conversion, used to instantiate the `normalize`
parameter on concrete inputs. -/
def camelcase_to_snakecase (s : String) : String :=
  match s.data with
  | [] => ""
  | c :: rest => String.mk (c.toLower :: snakeTail rest)
where
  snakeTail : List Char → List Char
    | [] => []
    | c :: rest =>
        (if c.isUpper then ['_', c.toLower] else [c]) ++ snakeTail rest

/-- The duplicate message when the name is in `_DATASET_REGISTRY`
(line 64 of the source). -/
def dupMsgConcrete (name : String) : String :=
  "Dataset with name " ++ name ++ " already registered."

/-- The duplicate message when the name is in `_IN_DEVELOPMENT_REGISTRY`
(lines 66-67 of the source). -/
def dupMsgInDevelopment (name : String) : String :=
  "Dataset with name " ++ name ++ " already registered as in development."

/-- The duplicate message when the name is in `_ABSTRACT_DATASET_REGISTRY`
(lines 69-70 of the source). -/
def dupMsgAbstract (name : String) : String :=
  "Dataset with name " ++ name ++ " already registered as abstract."

/-- Lines 72-79 of the source: the classification block. If
`_skip_registration` is set, do nothing; else insert the class into exactly
one table, chosen by `inspect.isabstract(builder_cls)`, then the truthiness
of `class_dict.get("IN_DEVELOPMENT")`, else the concrete table. -/
def registerClass (name : String) (builder_cls : Cls) (st : RegistryState) :
    RegistryState :=
  if st.skip_registration_flag then st
  else if builder_cls.is_abstract then
    { st with ABSTRACT_DATASET_REGISTRY :=
        dictInsert name builder_cls st.ABSTRACT_DATASET_REGISTRY }
  else if builder_cls.dict_IN_DEVELOPMENT = some true then
    { st with IN_DEVELOPMENT_REGISTRY :=
        dictInsert name builder_cls st.IN_DEVELOPMENT_REGISTRY }
  else
    { st with DATASET_REGISTRY :=
        dictInsert name builder_cls st.DATASET_REGISTRY }

/-- Lines 55-59 of the source: compute `name`, inject it into the class body
(`class_dict["name"] = name`), and construct the class via the underlying
mechanism (`super().__new__`); attribute lookup on the result resolves
`IN_DEVELOPMENT` to the body's entry when present, else to what the bases
provide. -/
def builderClsOf (normalize : String → String) (cls_name : String)
    (bases_IN_DEVELOPMENT : Bool) (is_abstract : Bool)
    (dict_IN_DEVELOPMENT : Option Bool) : Cls :=
  { cls_name := cls_name
    name := normalize cls_name
    is_abstract := is_abstract
    dict_IN_DEVELOPMENT := dict_IN_DEVELOPMENT
    IN_DEVELOPMENT := dict_IN_DEVELOPMENT.getD bases_IN_DEVELOPMENT }

/-- `RegisteredDataset.__new__` (lines 55-80 of the source). Inputs beyond the
state: the `normalize` collaborator, the `is_notebook` environment query, the
declared class name, what attribute lookup through the bases would give for
`IN_DEVELOPMENT` when the body does not set it, whether the constructed class
is abstract, and the class body's own `IN_DEVELOPMENT` entry. Returns the
constructed class or the raised `ValueError`, paired with the module state
after the call (on a raise the registries are untouched: every `raise` in the
source precedes the classification block). -/
def RegisteredDataset_new (normalize : String → String) (is_notebook : Bool)
    (cls_name : String) (bases_IN_DEVELOPMENT : Bool) (is_abstract : Bool)
    (dict_IN_DEVELOPMENT : Option Bool) (st : RegistryState) :
    Except RegError Cls × RegistryState :=
  let name := normalize cls_name
  let builder_cls : Cls :=
    builderClsOf normalize cls_name bases_IN_DEVELOPMENT is_abstract
      dict_IN_DEVELOPMENT
  if is_notebook then
    (.ok builder_cls, registerClass name builder_cls st)
  else if hasKey name st.DATASET_REGISTRY then
    (.error (.valueError (dupMsgConcrete name)), st)
  else if hasKey name st.IN_DEVELOPMENT_REGISTRY then
    (.error (.valueError (dupMsgInDevelopment name)), st)
  else if hasKey name st.ABSTRACT_DATASET_REGISTRY then
    (.error (.valueError (dupMsgAbstract name)), st)
  else
    (.ok builder_cls, registerClass name builder_cls st)

/-- The `skip_registration` context manager (lines 41-49 of the source) run
around a `body`: set `_skip_registration = True`, run the body (which returns
normally or propagates an exception, in both cases leaving the globals it
produced), and in the `finally` set `_skip_registration = False`. -/
def skip_registration_with (body : RegistryState → Except RegError Unit × RegistryState)
    (st : RegistryState) : Except RegError Unit × RegistryState :=
  let entered := { st with skip_registration_flag := true }
  let p := body entered
  (p.1, { p.2 with skip_registration_flag := false })

/-- One externally triggerable event on the module state: a class creation
(with its environment and inputs) or an update of the `_skip_registration`
flag (as performed by the context manager's entry and `finally`). -/
inductive Op where
  | create (is_notebook : Bool) (cls_name : String) (bases_IN_DEVELOPMENT : Bool)
      (is_abstract : Bool) (dict_IN_DEVELOPMENT : Option Bool)
  | setSkip (b : Bool)
deriving Repr, DecidableEq

/-- Apply one event to the state. A creation that raises leaves the state as
`RegisteredDataset_new` leaves it (unchanged: the raise precedes every
mutation of the tables). -/
def applyOp (normalize : String → String) (st : RegistryState) : Op → RegistryState
  | .create nb cn bd ab d => (RegisteredDataset_new normalize nb cn bd ab d st).2
  | .setSkip b => { st with skip_registration_flag := b }

/-- The state after a sequence of events starting from the initial module
state. -/
def runOps (normalize : String → String) (ops : List Op) : RegistryState :=
  ops.foldl (applyOp normalize) initRegistryState

/-- A name is claimed by at most one of the three tables. -/
def namesDisjoint (st : RegistryState) : Prop :=
  ∀ n : String,
    ¬(hasKey n st.DATASET_REGISTRY = true ∧
      hasKey n st.IN_DEVELOPMENT_REGISTRY = true) ∧
    ¬(hasKey n st.DATASET_REGISTRY = true ∧
      hasKey n st.ABSTRACT_DATASET_REGISTRY = true) ∧
    ¬(hasKey n st.IN_DEVELOPMENT_REGISTRY = true ∧
      hasKey n st.ABSTRACT_DATASET_REGISTRY = true)

theorem hasKey_dictInsert (k n : String) (v : Cls) (m : List (String × Cls)) :
    hasKey k (dictInsert n v m) = ((n = k : Bool) || hasKey k m) := by
  induction m with
  | nil => simp [dictInsert, hasKey]
  | cons p rest ih =>
    obtain ⟨k', v'⟩ := p
    simp only [dictInsert]
    by_cases h : k' = n
    · subst h
      by_cases hk : k' = k <;> simp [hasKey, hk]
    · simp only [if_neg h, hasKey, ih]
      by_cases hk : k' = k <;> by_cases hnk : n = k <;> simp [hk, hnk]

theorem RegisteredDataset_new_spec (normalize : String → String) (nb : Bool)
    (cn : String) (bd ab : Bool) (d : Option Bool) (st : RegistryState) :
    RegisteredDataset_new normalize nb cn bd ab d st =
      if nb = false ∧ hasKey (normalize cn) st.DATASET_REGISTRY = true then
        (.error (.valueError (dupMsgConcrete (normalize cn))), st)
      else if nb = false ∧ hasKey (normalize cn) st.IN_DEVELOPMENT_REGISTRY = true then
        (.error (.valueError (dupMsgInDevelopment (normalize cn))), st)
      else if nb = false ∧ hasKey (normalize cn) st.ABSTRACT_DATASET_REGISTRY = true then
        (.error (.valueError (dupMsgAbstract (normalize cn))), st)
      else
        (.ok (builderClsOf normalize cn bd ab d),
          registerClass (normalize cn) (builderClsOf normalize cn bd ab d) st) := by
  unfold RegisteredDataset_new
  cases nb with
  | true => simp
  | false =>
    by_cases h1 : hasKey (normalize cn) st.DATASET_REGISTRY <;>
      by_cases h2 : hasKey (normalize cn) st.IN_DEVELOPMENT_REGISTRY <;>
      by_cases h3 : hasKey (normalize cn) st.ABSTRACT_DATASET_REGISTRY <;>
      simp [h1, h2, h3]

/-- C1: `RegisteredDataset.__new__` raises if and only if the environment is
not a notebook and the normalized name is already in one of the three
registries; the check runs on every class creation (the state, including the
`_skip_registration` flag, is arbitrary here) and there is no other failure
mode. -/
theorem C1_duplicate_error_iff (normalize : String → String) (nb : Bool)
    (cn : String) (bd ab : Bool) (d : Option Bool) (st : RegistryState) :
    (∃ e, (RegisteredDataset_new normalize nb cn bd ab d st).1 = .error e) ↔
      (nb = false ∧
        (hasKey (normalize cn) st.DATASET_REGISTRY = true ∨
         hasKey (normalize cn) st.IN_DEVELOPMENT_REGISTRY = true ∨
         hasKey (normalize cn) st.ABSTRACT_DATASET_REGISTRY = true)) := by
  rw [RegisteredDataset_new_spec]
  cases nb with
  | true => simp
  | false =>
    by_cases h1 : hasKey (normalize cn) st.DATASET_REGISTRY <;>
      by_cases h2 : hasKey (normalize cn) st.IN_DEVELOPMENT_REGISTRY <;>
      by_cases h3 : hasKey (normalize cn) st.ABSTRACT_DATASET_REGISTRY <;>
      simp [h1, h2, h3]

/-- C2: on a class creation that returns normally with `_skip_registration`
false, an abstract class goes to the abstract registry, else a class whose
body sets `IN_DEVELOPMENT` truthy goes to the in-development registry, else
the class goes to the concrete registry; in each case the other two tables
are untouched, so an abstract or in-development class is never placed in the
concrete registry. -/
theorem C2_classification (normalize : String → String) (nb : Bool)
    (cn : String) (bd ab : Bool) (d : Option Bool) (st : RegistryState)
    (cls : Cls) (st' : RegistryState)
    (hskip : st.skip_registration_flag = false)
    (h : RegisteredDataset_new normalize nb cn bd ab d st = (.ok cls, st')) :
    (cls.is_abstract = true →
      st'.ABSTRACT_DATASET_REGISTRY =
        dictInsert (normalize cn) cls st.ABSTRACT_DATASET_REGISTRY ∧
      st'.DATASET_REGISTRY = st.DATASET_REGISTRY ∧
      st'.IN_DEVELOPMENT_REGISTRY = st.IN_DEVELOPMENT_REGISTRY) ∧
    (cls.is_abstract = false → cls.dict_IN_DEVELOPMENT = some true →
      st'.IN_DEVELOPMENT_REGISTRY =
        dictInsert (normalize cn) cls st.IN_DEVELOPMENT_REGISTRY ∧
      st'.DATASET_REGISTRY = st.DATASET_REGISTRY ∧
      st'.ABSTRACT_DATASET_REGISTRY = st.ABSTRACT_DATASET_REGISTRY) ∧
    (cls.is_abstract = false → cls.dict_IN_DEVELOPMENT ≠ some true →
      st'.DATASET_REGISTRY =
        dictInsert (normalize cn) cls st.DATASET_REGISTRY ∧
      st'.ABSTRACT_DATASET_REGISTRY = st.ABSTRACT_DATASET_REGISTRY ∧
      st'.IN_DEVELOPMENT_REGISTRY = st.IN_DEVELOPMENT_REGISTRY) := by
  rw [RegisteredDataset_new_spec] at h
  split_ifs at h
  · simp at h
  · simp at h
  · simp at h
  · have hcls : builderClsOf normalize cn bd ab d = cls := by
      have := congrArg Prod.fst h
      simpa using this
    have hst :
        registerClass (normalize cn) (builderClsOf normalize cn bd ab d) st =
          st' := congrArg Prod.snd h
    subst hcls
    subst hst
    refine ⟨?_, ?_, ?_⟩
    · intro hab
      simp only [builderClsOf] at hab
      simp [registerClass, hskip, builderClsOf, hab]
    · intro hab hd
      simp only [builderClsOf] at hab hd
      simp [registerClass, hskip, builderClsOf, hab, hd]
    · intro hab hd
      simp only [builderClsOf] at hab hd
      simp [registerClass, hskip, builderClsOf, hab, hd]

theorem C2_classification_witness :
    ((⟨"Base", "base", true, none, false⟩ : Cls).is_abstract = true →
      (⟨[], [("base", ⟨"Base", "base", true, none, false⟩)], [],
          false⟩ : RegistryState).ABSTRACT_DATASET_REGISTRY =
        dictInsert (camelcase_to_snakecase "Base")
          ⟨"Base", "base", true, none, false⟩
          initRegistryState.ABSTRACT_DATASET_REGISTRY ∧
      (⟨[], [("base", ⟨"Base", "base", true, none, false⟩)], [],
          false⟩ : RegistryState).DATASET_REGISTRY =
        initRegistryState.DATASET_REGISTRY ∧
      (⟨[], [("base", ⟨"Base", "base", true, none, false⟩)], [],
          false⟩ : RegistryState).IN_DEVELOPMENT_REGISTRY =
        initRegistryState.IN_DEVELOPMENT_REGISTRY) ∧
    ((⟨"Base", "base", true, none, false⟩ : Cls).is_abstract = false →
      (⟨"Base", "base", true, none, false⟩ : Cls).dict_IN_DEVELOPMENT =
        some true →
      (⟨[], [("base", ⟨"Base", "base", true, none, false⟩)], [],
          false⟩ : RegistryState).IN_DEVELOPMENT_REGISTRY =
        dictInsert (camelcase_to_snakecase "Base")
          ⟨"Base", "base", true, none, false⟩
          initRegistryState.IN_DEVELOPMENT_REGISTRY ∧
      (⟨[], [("base", ⟨"Base", "base", true, none, false⟩)], [],
          false⟩ : RegistryState).DATASET_REGISTRY =
        initRegistryState.DATASET_REGISTRY ∧
      (⟨[], [("base", ⟨"Base", "base", true, none, false⟩)], [],
          false⟩ : RegistryState).ABSTRACT_DATASET_REGISTRY =
        initRegistryState.ABSTRACT_DATASET_REGISTRY) ∧
    ((⟨"Base", "base", true, none, false⟩ : Cls).is_abstract = false →
      (⟨"Base", "base", true, none, false⟩ : Cls).dict_IN_DEVELOPMENT ≠
        some true →
      (⟨[], [("base", ⟨"Base", "base", true, none, false⟩)], [],
          false⟩ : RegistryState).DATASET_REGISTRY =
        dictInsert (camelcase_to_snakecase "Base")
          ⟨"Base", "base", true, none, false⟩
          initRegistryState.DATASET_REGISTRY ∧
      (⟨[], [("base", ⟨"Base", "base", true, none, false⟩)], [],
          false⟩ : RegistryState).ABSTRACT_DATASET_REGISTRY =
        initRegistryState.ABSTRACT_DATASET_REGISTRY ∧
      (⟨[], [("base", ⟨"Base", "base", true, none, false⟩)], [],
          false⟩ : RegistryState).IN_DEVELOPMENT_REGISTRY =
        initRegistryState.IN_DEVELOPMENT_REGISTRY) :=
  C2_classification camelcase_to_snakecase false "Base" false true none
    initRegistryState ⟨"Base", "base", true, none, false⟩
    ⟨[], [("base", ⟨"Base", "base", true, none, false⟩)], [], false⟩
    (by rfl) (by rfl)

/-- C4: whenever a class creation returns a class (the state, including an
active `_skip_registration`, is arbitrary), that class's `name` attribute is
exactly `normalize` applied to the declared class name; the assignment is
deterministic in the class name because it is the value of a function of it. -/
theorem C4_name_attribute (normalize : String → String) (nb : Bool)
    (cn : String) (bd ab : Bool) (d : Option Bool) (st : RegistryState)
    (cls : Cls) (st' : RegistryState)
    (h : RegisteredDataset_new normalize nb cn bd ab d st = (.ok cls, st')) :
    cls.name = normalize cn := by
  rw [RegisteredDataset_new_spec] at h
  split_ifs at h
  · simp at h
  · simp at h
  · simp at h
  · have hcls : builderClsOf normalize cn bd ab d = cls := by
      simpa using congrArg Prod.fst h
    rw [← hcls]
    rfl

theorem C4_name_attribute_witness :
    (⟨"MyDataset", "my_dataset", false, none, false⟩ : Cls).name =
      camelcase_to_snakecase "MyDataset" :=
  C4_name_attribute camelcase_to_snakecase false "MyDataset" false false none
    ⟨[], [], [], true⟩ ⟨"MyDataset", "my_dataset", false, none, false⟩
    ⟨[], [], [], true⟩ (by rfl)

/-- C6: when `RegisteredDataset.__new__` raises, none of the three registry
tables is modified by the call: every `raise` precedes the classification
block, so registration is all-or-nothing. -/
theorem C6_raise_leaves_tables (normalize : String → String) (nb : Bool)
    (cn : String) (bd ab : Bool) (d : Option Bool) (st : RegistryState)
    (e : RegError) (st' : RegistryState)
    (h : RegisteredDataset_new normalize nb cn bd ab d st = (.error e, st')) :
    st'.DATASET_REGISTRY = st.DATASET_REGISTRY ∧
    st'.IN_DEVELOPMENT_REGISTRY = st.IN_DEVELOPMENT_REGISTRY ∧
    st'.ABSTRACT_DATASET_REGISTRY = st.ABSTRACT_DATASET_REGISTRY := by
  rw [RegisteredDataset_new_spec] at h
  split_ifs at h
  · have hst : st = st' := congrArg Prod.snd h
    subst hst
    exact ⟨rfl, rfl, rfl⟩
  · have hst : st = st' := congrArg Prod.snd h
    subst hst
    exact ⟨rfl, rfl, rfl⟩
  · have hst : st = st' := congrArg Prod.snd h
    subst hst
    exact ⟨rfl, rfl, rfl⟩
  · simp at h

theorem C6_raise_leaves_tables_witness :
    (⟨[("foo", ⟨"Foo", "foo", false, none, false⟩)], [], [],
        false⟩ : RegistryState).DATASET_REGISTRY =
      (⟨[("foo", ⟨"Foo", "foo", false, none, false⟩)], [], [],
        false⟩ : RegistryState).DATASET_REGISTRY ∧
    (⟨[("foo", ⟨"Foo", "foo", false, none, false⟩)], [], [],
        false⟩ : RegistryState).IN_DEVELOPMENT_REGISTRY =
      (⟨[("foo", ⟨"Foo", "foo", false, none, false⟩)], [], [],
        false⟩ : RegistryState).IN_DEVELOPMENT_REGISTRY ∧
    (⟨[("foo", ⟨"Foo", "foo", false, none, false⟩)], [], [],
        false⟩ : RegistryState).ABSTRACT_DATASET_REGISTRY =
      (⟨[("foo", ⟨"Foo", "foo", false, none, false⟩)], [], [],
        false⟩ : RegistryState).ABSTRACT_DATASET_REGISTRY :=
  C6_raise_leaves_tables camelcase_to_snakecase false "Foo" false false none
    ⟨[("foo", ⟨"Foo", "foo", false, none, false⟩)], [], [], false⟩
    (.valueError (dupMsgConcrete "foo"))
    ⟨[("foo", ⟨"Foo", "foo", false, none, false⟩)], [], [], false⟩
    (by rfl)

theorem dupMsgConcrete_ne_dupMsgInDevelopment (n : String) :
    dupMsgConcrete n ≠ dupMsgInDevelopment n := by
  intro h
  have hd := congrArg String.data h
  simp only [dupMsgConcrete, dupMsgInDevelopment, String.data_append,
    List.append_assoc] at hd
  have h1 := List.append_cancel_left hd
  have h2 := List.append_cancel_left h1
  exact absurd h2 (by decide)

theorem dupMsgConcrete_ne_dupMsgAbstract (n : String) :
    dupMsgConcrete n ≠ dupMsgAbstract n := by
  intro h
  have hd := congrArg String.data h
  simp only [dupMsgConcrete, dupMsgAbstract, String.data_append,
    List.append_assoc] at hd
  have h1 := List.append_cancel_left hd
  have h2 := List.append_cancel_left h1
  exact absurd h2 (by decide)

theorem dupMsgInDevelopment_ne_dupMsgAbstract (n : String) :
    dupMsgInDevelopment n ≠ dupMsgAbstract n := by
  intro h
  have hd := congrArg String.data h
  simp only [dupMsgInDevelopment, dupMsgAbstract, String.data_append,
    List.append_assoc] at hd
  have h1 := List.append_cancel_left hd
  have h2 := List.append_cancel_left h1
  exact absurd h2 (by decide)

/-- C7: outside a notebook the duplicate error carries the message of the
table holding the conflicting name (checked in the source's order: concrete,
then in-development, then abstract), and the three messages are pairwise
distinct for every name, so the error identifies the table; in particular a
name already in the concrete registry yields the concrete-table message. -/
theorem C7_error_identifies_table (normalize : String → String)
    (cn : String) (bd ab : Bool) (d : Option Bool) (st : RegistryState) :
    (hasKey (normalize cn) st.DATASET_REGISTRY = true →
      (RegisteredDataset_new normalize false cn bd ab d st).1 =
        .error (.valueError (dupMsgConcrete (normalize cn)))) ∧
    (hasKey (normalize cn) st.DATASET_REGISTRY = false →
      hasKey (normalize cn) st.IN_DEVELOPMENT_REGISTRY = true →
      (RegisteredDataset_new normalize false cn bd ab d st).1 =
        .error (.valueError (dupMsgInDevelopment (normalize cn)))) ∧
    (hasKey (normalize cn) st.DATASET_REGISTRY = false →
      hasKey (normalize cn) st.IN_DEVELOPMENT_REGISTRY = false →
      hasKey (normalize cn) st.ABSTRACT_DATASET_REGISTRY = true →
      (RegisteredDataset_new normalize false cn bd ab d st).1 =
        .error (.valueError (dupMsgAbstract (normalize cn)))) ∧
    dupMsgConcrete (normalize cn) ≠ dupMsgInDevelopment (normalize cn) ∧
    dupMsgConcrete (normalize cn) ≠ dupMsgAbstract (normalize cn) ∧
    dupMsgInDevelopment (normalize cn) ≠ dupMsgAbstract (normalize cn) := by
  refine ⟨?_, ?_, ?_, dupMsgConcrete_ne_dupMsgInDevelopment _,
    dupMsgConcrete_ne_dupMsgAbstract _, dupMsgInDevelopment_ne_dupMsgAbstract _⟩
  · intro h1
    rw [RegisteredDataset_new_spec]
    simp [h1]
  · intro h1 h2
    rw [RegisteredDataset_new_spec]
    simp [h1, h2]
  · intro h1 h2 h3
    rw [RegisteredDataset_new_spec]
    simp [h1, h2, h3]

theorem C7_error_identifies_table_witness :
    (hasKey (camelcase_to_snakecase "MyDataset")
        (⟨[("my_dataset", ⟨"MyDataset", "my_dataset", false, none, false⟩)],
          [], [], false⟩ : RegistryState).DATASET_REGISTRY = true →
      (RegisteredDataset_new camelcase_to_snakecase false "MyDataset" false
          false none
          ⟨[("my_dataset", ⟨"MyDataset", "my_dataset", false, none, false⟩)],
            [], [], false⟩).1 =
        .error (.valueError
          (dupMsgConcrete (camelcase_to_snakecase "MyDataset")))) ∧
    (hasKey (camelcase_to_snakecase "MyDataset")
        (⟨[("my_dataset", ⟨"MyDataset", "my_dataset", false, none, false⟩)],
          [], [], false⟩ : RegistryState).DATASET_REGISTRY = false →
      hasKey (camelcase_to_snakecase "MyDataset")
        (⟨[("my_dataset", ⟨"MyDataset", "my_dataset", false, none, false⟩)],
          [], [], false⟩ : RegistryState).IN_DEVELOPMENT_REGISTRY = true →
      (RegisteredDataset_new camelcase_to_snakecase false "MyDataset" false
          false none
          ⟨[("my_dataset", ⟨"MyDataset", "my_dataset", false, none, false⟩)],
            [], [], false⟩).1 =
        .error (.valueError
          (dupMsgInDevelopment (camelcase_to_snakecase "MyDataset")))) ∧
    (hasKey (camelcase_to_snakecase "MyDataset")
        (⟨[("my_dataset", ⟨"MyDataset", "my_dataset", false, none, false⟩)],
          [], [], false⟩ : RegistryState).DATASET_REGISTRY = false →
      hasKey (camelcase_to_snakecase "MyDataset")
        (⟨[("my_dataset", ⟨"MyDataset", "my_dataset", false, none, false⟩)],
          [], [], false⟩ : RegistryState).IN_DEVELOPMENT_REGISTRY = false →
      hasKey (camelcase_to_snakecase "MyDataset")
        (⟨[("my_dataset", ⟨"MyDataset", "my_dataset", false, none, false⟩)],
          [], [], false⟩ : RegistryState).ABSTRACT_DATASET_REGISTRY = true →
      (RegisteredDataset_new camelcase_to_snakecase false "MyDataset" false
          false none
          ⟨[("my_dataset", ⟨"MyDataset", "my_dataset", false, none, false⟩)],
            [], [], false⟩).1 =
        .error (.valueError
          (dupMsgAbstract (camelcase_to_snakecase "MyDataset")))) ∧
    dupMsgConcrete (camelcase_to_snakecase "MyDataset") ≠
      dupMsgInDevelopment (camelcase_to_snakecase "MyDataset") ∧
    dupMsgConcrete (camelcase_to_snakecase "MyDataset") ≠
      dupMsgAbstract (camelcase_to_snakecase "MyDataset") ∧
    dupMsgInDevelopment (camelcase_to_snakecase "MyDataset") ≠
      dupMsgAbstract (camelcase_to_snakecase "MyDataset") :=
  C7_error_identifies_table camelcase_to_snakecase "MyDataset" false false none
    ⟨[("my_dataset", ⟨"MyDataset", "my_dataset", false, none, false⟩)],
      [], [], false⟩

/-- C8: a class creation that returns normally sets the `name` attribute on
the class, leaves the `_skip_registration` flag as it was, leaves the whole
state untouched when the flag is active, and otherwise produces exactly the
input state with the one table selected by classification updated — the two
unselected tables and every other component are unchanged. -/
theorem C8_frame (normalize : String → String) (nb : Bool)
    (cn : String) (bd ab : Bool) (d : Option Bool) (st : RegistryState)
    (cls : Cls) (st' : RegistryState)
    (h : RegisteredDataset_new normalize nb cn bd ab d st = (.ok cls, st')) :
    cls.name = normalize cn ∧
    st'.skip_registration_flag = st.skip_registration_flag ∧
    (st.skip_registration_flag = true → st' = st) ∧
    (st.skip_registration_flag = false →
      (cls.is_abstract = true →
        st' = { st with ABSTRACT_DATASET_REGISTRY := dictInsert (normalize cn) cls st.ABSTRACT_DATASET_REGISTRY }) ∧
      (cls.is_abstract = false → cls.dict_IN_DEVELOPMENT = some true →
        st' = { st with IN_DEVELOPMENT_REGISTRY := dictInsert (normalize cn) cls st.IN_DEVELOPMENT_REGISTRY }) ∧
      (cls.is_abstract = false → cls.dict_IN_DEVELOPMENT ≠ some true →
        st' = { st with DATASET_REGISTRY := dictInsert (normalize cn) cls st.DATASET_REGISTRY })) := by
  rw [RegisteredDataset_new_spec] at h
  split_ifs at h
  · simp at h
  · simp at h
  · simp at h
  · have hcls : builderClsOf normalize cn bd ab d = cls := by
      simpa using congrArg Prod.fst h
    have hst : registerClass (normalize cn)
        (builderClsOf normalize cn bd ab d) st = st' :=
      congrArg Prod.snd h
    subst hcls
    subst hst
    refine ⟨rfl, ?_, ?_, ?_⟩
    · by_cases hskip : st.skip_registration_flag
      · simp [registerClass, hskip]
      · simp only [Bool.not_eq_true] at hskip
        by_cases hab : (builderClsOf normalize cn bd ab d).is_abstract <;>
          by_cases hdev : (builderClsOf normalize cn bd ab d).dict_IN_DEVELOPMENT
              = some true <;>
          simp [registerClass, hskip, hab, hdev]
    · intro hskip
      simp [registerClass, hskip]
    · intro hskip
      refine ⟨?_, ?_, ?_⟩
      · intro hab
        simp [registerClass, hskip, hab]
      · intro hab hdev
        simp [registerClass, hskip, hab, hdev]
      · intro hab hdev
        simp [registerClass, hskip, hab, hdev]

theorem C8_frame_witness :
    (⟨"MyDev", "my_dev", false, some true, true⟩ : Cls).name =
      camelcase_to_snakecase "MyDev" ∧
    (⟨[], [], [("my_dev", ⟨"MyDev", "my_dev", false, some true, true⟩)],
        false⟩ : RegistryState).skip_registration_flag =
      initRegistryState.skip_registration_flag ∧
    (initRegistryState.skip_registration_flag = true →
      (⟨[], [], [("my_dev", ⟨"MyDev", "my_dev", false, some true, true⟩)],
        false⟩ : RegistryState) = initRegistryState) ∧
    (initRegistryState.skip_registration_flag = false →
      ((⟨"MyDev", "my_dev", false, some true, true⟩ : Cls).is_abstract = true →
        (⟨[], [], [("my_dev", ⟨"MyDev", "my_dev", false, some true, true⟩)],
          false⟩ : RegistryState) =
          { initRegistryState with ABSTRACT_DATASET_REGISTRY := dictInsert (camelcase_to_snakecase "MyDev") ⟨"MyDev", "my_dev", false, some true, true⟩ initRegistryState.ABSTRACT_DATASET_REGISTRY }) ∧
      ((⟨"MyDev", "my_dev", false, some true, true⟩ : Cls).is_abstract = false →
        (⟨"MyDev", "my_dev", false, some true, true⟩ : Cls).dict_IN_DEVELOPMENT
            = some true →
        (⟨[], [], [("my_dev", ⟨"MyDev", "my_dev", false, some true, true⟩)],
          false⟩ : RegistryState) =
          { initRegistryState with IN_DEVELOPMENT_REGISTRY := dictInsert (camelcase_to_snakecase "MyDev") ⟨"MyDev", "my_dev", false, some true, true⟩ initRegistryState.IN_DEVELOPMENT_REGISTRY }) ∧
      ((⟨"MyDev", "my_dev", false, some true, true⟩ : Cls).is_abstract = false →
        (⟨"MyDev", "my_dev", false, some true, true⟩ : Cls).dict_IN_DEVELOPMENT
            ≠ some true →
        (⟨[], [], [("my_dev", ⟨"MyDev", "my_dev", false, some true, true⟩)],
          false⟩ : RegistryState) =
          { initRegistryState with DATASET_REGISTRY := dictInsert (camelcase_to_snakecase "MyDev") ⟨"MyDev", "my_dev", false, some true, true⟩ initRegistryState.DATASET_REGISTRY })) :=
  C8_frame camelcase_to_snakecase false "MyDev" false false (some true)
    initRegistryState ⟨"MyDev", "my_dev", false, some true, true⟩
    ⟨[], [], [("my_dev", ⟨"MyDev", "my_dev", false, some true, true⟩)], false⟩
    (by rfl)

theorem RegisteredDataset_new_skip_state (normalize : String → String)
    (nb : Bool) (cn : String) (bd ab : Bool) (d : Option Bool)
    (st : RegistryState) (hs : st.skip_registration_flag = true) :
    (RegisteredDataset_new normalize nb cn bd ab d st).2 = st := by
  rw [RegisteredDataset_new_spec]
  split_ifs <;> simp [registerClass, hs]

/-- C5: running the `skip_registration` guard around a single class creation
leaves the flag false on exit whatever the body did (in particular when the
creation raised and the exception propagated, modelled by `body2` being
arbitrary and by the creation's `Except` result being unconstrained); any
class creation performed on a state whose flag is set — as the guard sets it
on entry — inserts into none of the three tables; and a creation after the
guard exits, with a fresh name, registers normally into the concrete table. -/
theorem C5_skip_registration_scope (normalize : String → String)
    (body2 : RegistryState → Except RegError Unit × RegistryState)
    (st : RegistryState) (nb : Bool) (cn : String) (bd ab : Bool)
    (d : Option Bool) (s : RegistryState)
    (hs : s.skip_registration_flag = true) (cn2 : String) (bd2 : Bool)
    (hf1 : hasKey (normalize cn2) st.DATASET_REGISTRY = false)
    (hf2 : hasKey (normalize cn2) st.IN_DEVELOPMENT_REGISTRY = false)
    (hf3 : hasKey (normalize cn2) st.ABSTRACT_DATASET_REGISTRY = false) :
    (skip_registration_with body2 st).2.skip_registration_flag = false ∧
    ((RegisteredDataset_new normalize nb cn bd ab d s).2.DATASET_REGISTRY =
        s.DATASET_REGISTRY ∧
      (RegisteredDataset_new normalize nb cn bd ab d
          s).2.IN_DEVELOPMENT_REGISTRY = s.IN_DEVELOPMENT_REGISTRY ∧
      (RegisteredDataset_new normalize nb cn bd ab d
          s).2.ABSTRACT_DATASET_REGISTRY = s.ABSTRACT_DATASET_REGISTRY) ∧
    (skip_registration_with
        (fun s2 =>
          ((RegisteredDataset_new normalize nb cn bd ab d s2).1.map fun _ => (),
            (RegisteredDataset_new normalize nb cn bd ab d s2).2))
        st).2 =
      { st with skip_registration_flag := false } ∧
    hasKey (normalize cn2)
      ((RegisteredDataset_new normalize false cn2 bd2 false none
          ((skip_registration_with
            (fun s2 =>
              ((RegisteredDataset_new normalize nb cn bd ab d s2).1.map
                  fun _ => (),
                (RegisteredDataset_new normalize nb cn bd ab d s2).2))
            st).2)).2.DATASET_REGISTRY) = true := by
  have hguard :
      (skip_registration_with
          (fun s2 =>
            ((RegisteredDataset_new normalize nb cn bd ab d s2).1.map
                fun _ => (),
              (RegisteredDataset_new normalize nb cn bd ab d s2).2))
          st).2 =
        { st with skip_registration_flag := false } := by
    unfold skip_registration_with
    dsimp only
    rw [RegisteredDataset_new_skip_state normalize nb cn bd ab d
      { st with skip_registration_flag := true } rfl]
  have hskipped := RegisteredDataset_new_skip_state normalize nb cn bd ab d s hs
  refine ⟨rfl, ⟨?_, ?_, ?_⟩, hguard, ?_⟩
  · rw [hskipped]
  · rw [hskipped]
  · rw [hskipped]
  · rw [hguard]
    rw [RegisteredDataset_new_spec]
    simp [hf1, hf2, hf3, registerClass, builderClsOf, hasKey_dictInsert]

theorem C5_skip_registration_scope_witness :
    (skip_registration_with (fun s => (.error (.valueError "boom"), s))
        initRegistryState).2.skip_registration_flag = false ∧
    ((RegisteredDataset_new camelcase_to_snakecase false "Temp" false false
        none ⟨[], [], [], true⟩).2.DATASET_REGISTRY =
        (⟨[], [], [], true⟩ : RegistryState).DATASET_REGISTRY ∧
      (RegisteredDataset_new camelcase_to_snakecase false "Temp" false false
          none ⟨[], [], [], true⟩).2.IN_DEVELOPMENT_REGISTRY =
        (⟨[], [], [], true⟩ : RegistryState).IN_DEVELOPMENT_REGISTRY ∧
      (RegisteredDataset_new camelcase_to_snakecase false "Temp" false false
          none ⟨[], [], [], true⟩).2.ABSTRACT_DATASET_REGISTRY =
        (⟨[], [], [], true⟩ : RegistryState).ABSTRACT_DATASET_REGISTRY) ∧
    (skip_registration_with
        (fun s2 =>
          ((RegisteredDataset_new camelcase_to_snakecase false "Temp" false
              false none s2).1.map fun _ => (),
            (RegisteredDataset_new camelcase_to_snakecase false "Temp" false
              false none s2).2))
        initRegistryState).2 =
      { initRegistryState with skip_registration_flag := false } ∧
    hasKey (camelcase_to_snakecase "After")
      ((RegisteredDataset_new camelcase_to_snakecase false "After" false false
          none
          ((skip_registration_with
            (fun s2 =>
              ((RegisteredDataset_new camelcase_to_snakecase false "Temp" false
                  false none s2).1.map fun _ => (),
                (RegisteredDataset_new camelcase_to_snakecase false "Temp"
                  false false none s2).2))
            initRegistryState).2)).2.DATASET_REGISTRY) = true :=
  C5_skip_registration_scope camelcase_to_snakecase
    (fun s => (.error (.valueError "boom"), s)) initRegistryState false "Temp"
    false false none ⟨[], [], [], true⟩ (by rfl) "After" false (by rfl)
    (by rfl) (by rfl)

/-- C9: `_skip_registration` is a single global flag and the guard's finally
clears it unconditionally, so nesting is not reentrant even single-threaded:
with an inner guard run and exited inside an outer guard's body, a class then
created while the outer guard is still textually active lands in the concrete
registry table. -/
theorem C9_guard_not_reentrant (normalize : String → String)
    (st : RegistryState) (cn : String) (bd : Bool)
    (hf1 : hasKey (normalize cn) st.DATASET_REGISTRY = false)
    (hf2 : hasKey (normalize cn) st.IN_DEVELOPMENT_REGISTRY = false)
    (hf3 : hasKey (normalize cn) st.ABSTRACT_DATASET_REGISTRY = false) :
    hasKey (normalize cn)
      ((skip_registration_with
          (fun s =>
            let p := skip_registration_with (fun s2 => (.ok (), s2)) s
            let q := RegisteredDataset_new normalize false cn bd false none p.2
            (q.1.map fun _ => (), q.2))
          st).2.DATASET_REGISTRY) = true := by
  unfold skip_registration_with
  dsimp only
  rw [RegisteredDataset_new_spec]
  simp [hf1, hf2, hf3, registerClass, builderClsOf, hasKey_dictInsert]

theorem C9_guard_not_reentrant_witness :
    hasKey (camelcase_to_snakecase "Inner")
      ((skip_registration_with
          (fun s =>
            let p := skip_registration_with (fun s2 => (.ok (), s2)) s
            let q := RegisteredDataset_new camelcase_to_snakecase false "Inner"
              false false none p.2
            (q.1.map fun _ => (), q.2))
          initRegistryState).2.DATASET_REGISTRY) = true :=
  C9_guard_not_reentrant camelcase_to_snakecase initRegistryState "Inner" false
    (by rfl) (by rfl) (by rfl)

/-- C10: the in-development test reads only the class body passed at creation
(`class_dict.get("IN_DEVELOPMENT")`), not the constructed class's attributes:
a non-abstract class whose own body does not set the marker but which
inherits `IN_DEVELOPMENT = True` from its bases (so its effective attribute
is true) is inserted into the concrete registry, and the in-development
registry is untouched. -/
theorem C10_marker_read_from_class_body (normalize : String → String)
    (cn : String) (st : RegistryState)
    (hskip : st.skip_registration_flag = false)
    (hf1 : hasKey (normalize cn) st.DATASET_REGISTRY = false)
    (hf2 : hasKey (normalize cn) st.IN_DEVELOPMENT_REGISTRY = false)
    (hf3 : hasKey (normalize cn) st.ABSTRACT_DATASET_REGISTRY = false) :
    (RegisteredDataset_new normalize false cn true false none st).1 =
      .ok (builderClsOf normalize cn true false none) ∧
    (builderClsOf normalize cn true false none).IN_DEVELOPMENT = true ∧
    (RegisteredDataset_new normalize false cn true false none
        st).2.IN_DEVELOPMENT_REGISTRY = st.IN_DEVELOPMENT_REGISTRY ∧
    (RegisteredDataset_new normalize false cn true false none
        st).2.DATASET_REGISTRY =
      dictInsert (normalize cn) (builderClsOf normalize cn true false none)
        st.DATASET_REGISTRY := by
  rw [RegisteredDataset_new_spec]
  refine ⟨?_, ?_, ?_, ?_⟩ <;>
    simp [hf1, hf2, hf3, registerClass, hskip, builderClsOf]

theorem C10_marker_read_from_class_body_witness :
    (RegisteredDataset_new camelcase_to_snakecase false "Child" true false
        none initRegistryState).1 =
      .ok (builderClsOf camelcase_to_snakecase "Child" true false none) ∧
    (builderClsOf camelcase_to_snakecase "Child" true false
        none).IN_DEVELOPMENT = true ∧
    (RegisteredDataset_new camelcase_to_snakecase false "Child" true false
        none initRegistryState).2.IN_DEVELOPMENT_REGISTRY =
      initRegistryState.IN_DEVELOPMENT_REGISTRY ∧
    (RegisteredDataset_new camelcase_to_snakecase false "Child" true false
        none initRegistryState).2.DATASET_REGISTRY =
      dictInsert (camelcase_to_snakecase "Child")
        (builderClsOf camelcase_to_snakecase "Child" true false none)
        initRegistryState.DATASET_REGISTRY :=
  C10_marker_read_from_class_body camelcase_to_snakecase "Child"
    initRegistryState (by rfl) (by rfl) (by rfl) (by rfl)

/-- C3 as literally stated fails: in a notebook/interactive environment the
collision check is skipped, so two creations normalizing to the same name can
land in two different tables. After creating a concrete `Foo` and then an
abstract `Foo` with `is_notebook` true, the name `foo` is in both the
concrete and the abstract registry. -/
theorem C3_disjointness_counterexample :
    ¬ namesDisjoint (runOps camelcase_to_snakecase
      [.create true "Foo" false false none,
       .create true "Foo" false true none]) := by
  intro h
  have h2 := (h "foo").2.1
  exact h2 ⟨by decide, by decide⟩

/-- An event that does not run under the notebook/interactive relaxation. -/
def opOutsideNotebook : Op → Bool
  | .create nb _ _ _ _ => nb = false
  | .setSkip _ => true

theorem namesDisjoint_registerClass (name : String) (cls : Cls)
    (st : RegistryState) (hd : namesDisjoint st)
    (h1 : hasKey name st.DATASET_REGISTRY = false)
    (h2 : hasKey name st.IN_DEVELOPMENT_REGISTRY = false)
    (h3 : hasKey name st.ABSTRACT_DATASET_REGISTRY = false) :
    namesDisjoint (registerClass name cls st) := by
  unfold registerClass
  split_ifs with hs hab hdev
  · exact hd
  · intro n
    obtain ⟨g1, g2, g3⟩ := hd n
    refine ⟨g1, ?_, ?_⟩
    · rintro ⟨ha, hb⟩
      simp only [hasKey_dictInsert, Bool.or_eq_true] at hb
      rcases hb with hb | hb
      · rw [of_decide_eq_true hb] at h1
        rw [h1] at ha
        cases ha
      · exact g2 ⟨ha, hb⟩
    · rintro ⟨ha, hb⟩
      simp only [hasKey_dictInsert, Bool.or_eq_true] at hb
      rcases hb with hb | hb
      · rw [of_decide_eq_true hb] at h2
        rw [h2] at ha
        cases ha
      · exact g3 ⟨ha, hb⟩
  · intro n
    obtain ⟨g1, g2, g3⟩ := hd n
    refine ⟨?_, g2, ?_⟩
    · rintro ⟨ha, hb⟩
      simp only [hasKey_dictInsert, Bool.or_eq_true] at hb
      rcases hb with hb | hb
      · rw [of_decide_eq_true hb] at h1
        rw [h1] at ha
        cases ha
      · exact g1 ⟨ha, hb⟩
    · rintro ⟨ha, hb⟩
      simp only [hasKey_dictInsert, Bool.or_eq_true] at ha
      rcases ha with ha | ha
      · rw [of_decide_eq_true ha] at h3
        rw [h3] at hb
        cases hb
      · exact g3 ⟨ha, hb⟩
  · intro n
    obtain ⟨g1, g2, g3⟩ := hd n
    refine ⟨?_, ?_, g3⟩
    · rintro ⟨ha, hb⟩
      simp only [hasKey_dictInsert, Bool.or_eq_true] at ha
      rcases ha with ha | ha
      · rw [of_decide_eq_true ha] at h2
        rw [h2] at hb
        cases hb
      · exact g1 ⟨ha, hb⟩
    · rintro ⟨ha, hb⟩
      simp only [hasKey_dictInsert, Bool.or_eq_true] at ha
      rcases ha with ha | ha
      · rw [of_decide_eq_true ha] at h3
        rw [h3] at hb
        cases hb
      · exact g2 ⟨ha, hb⟩

theorem namesDisjoint_applyOp (normalize : String → String)
    (st : RegistryState) (op : Op) (hd : namesDisjoint st)
    (hop : opOutsideNotebook op = true) :
    namesDisjoint (applyOp normalize st op) := by
  cases op with
  | setSkip b =>
    intro n
    exact hd n
  | create nb cn bd ab d =>
    have hnb : nb = false := by
      simpa [opOutsideNotebook] using hop
    subst hnb
    simp only [applyOp]
    rw [RegisteredDataset_new_spec]
    by_cases h1 : hasKey (normalize cn) st.DATASET_REGISTRY = true
    · simpa [h1] using hd
    · by_cases h2 : hasKey (normalize cn) st.IN_DEVELOPMENT_REGISTRY = true
      · simpa [h1, h2] using hd
      · by_cases h3 : hasKey (normalize cn) st.ABSTRACT_DATASET_REGISTRY = true
        · simpa [h1, h2, h3] using hd
        · simp only [Bool.not_eq_true] at h1 h2 h3
          simp only [h1, h2, h3, Bool.false_eq_true, and_false, false_and,
            if_false, ite_false, false_and]
          exact namesDisjoint_registerClass _ _ _ hd h1 h2 h3

theorem namesDisjoint_init : namesDisjoint initRegistryState := by
  intro n
  refine ⟨?_, ?_, ?_⟩ <;> rintro ⟨ha, _⟩ <;>
    simp [initRegistryState, hasKey] at ha

/-- C3 amended: provided no class creation happens under the
notebook/interactive relaxation (which skips the collision check), every
state reachable by a sequence of class creations and flag updates has each
normalized name in at most one of the three tables, because every insertion
is preceded by the check of all three. The unamended claim is refuted by
`C3_disjointness_counterexample`. -/
theorem C3_disjointness_invariant (normalize : String → String)
    (ops : List Op) (h : ∀ op ∈ ops, opOutsideNotebook op = true) :
    namesDisjoint (runOps normalize ops) := by
  suffices H : ∀ (l : List Op) (st : RegistryState), namesDisjoint st →
      (∀ op ∈ l, opOutsideNotebook op = true) →
      namesDisjoint (l.foldl (applyOp normalize) st) by
    exact H ops initRegistryState namesDisjoint_init h
  intro l
  induction l with
  | nil =>
    intro st hd _
    exact hd
  | cons op rest ih =>
    intro st hd hops
    simp only [List.foldl_cons]
    exact ih _ (namesDisjoint_applyOp _ _ _ hd (hops op (by simp)))
      (fun o ho => hops o (by simp [ho]))

theorem C3_disjointness_invariant_witness :
    namesDisjoint (runOps camelcase_to_snakecase
      [.create false "Base" false true none,
       .setSkip true,
       .create false "Skipped" false false none,
       .setSkip false,
       .create false "MyDataset" false false none,
       .create false "MyDev" false false (some true)]) :=
  C3_disjointness_invariant camelcase_to_snakecase
    [.create false "Base" false true none,
     .setSkip true,
     .create false "Skipped" false false none,
     .setSkip false,
     .create false "MyDataset" false false none,
     .create false "MyDev" false false (some true)]
    (by decide)

theorem C1_duplicate_error_iff_witness :
    (∃ e, (RegisteredDataset_new camelcase_to_snakecase false "Foo" false false
        none
        ⟨[("foo", ⟨"Foo", "foo", false, none, false⟩)], [], [],
          false⟩).1 = .error e) ↔
      (false = false ∧
        (hasKey (camelcase_to_snakecase "Foo")
            (⟨[("foo", ⟨"Foo", "foo", false, none, false⟩)], [], [],
              false⟩ : RegistryState).DATASET_REGISTRY = true ∨
         hasKey (camelcase_to_snakecase "Foo")
            (⟨[("foo", ⟨"Foo", "foo", false, none, false⟩)], [], [],
              false⟩ : RegistryState).IN_DEVELOPMENT_REGISTRY = true ∨
         hasKey (camelcase_to_snakecase "Foo")
            (⟨[("foo", ⟨"Foo", "foo", false, none, false⟩)], [], [],
              false⟩ : RegistryState).ABSTRACT_DATASET_REGISTRY = true)) :=
  C1_duplicate_error_iff camelcase_to_snakecase false "Foo" false false none
    ⟨[("foo", ⟨"Foo", "foo", false, none, false⟩)], [], [], false⟩
